import Mathlib

/-!
Verification of the LilyPond notation-conversion pipeline.

Shallow embedding of:
  - convert_lilypond_to_pdf_midi (src/utils/file_converter.py, identical logic
    in convert_lilypond of src/app.py): writes source to a scratch directory,
    invokes the external engraving executable, and returns a five-tuple
    (pdf_data, pdf_filename, midi_data, midi_filename, error).
  - find_lilypond (src/utils/lilypond_finder.py, duplicated in src/app.py):
    probes the bare command, then a platform-specific path list.
  - the title extractor, which is not present under src/ and is therefore
    modelled from the spec.

External effects (filesystem, subprocess) are modelled by an environment
record whose fields give the outcome of each effectful operation the code
performs, in program order. Fallible operations are Except String; the
exception branch corresponds to a Python exception with that message.
Byte buffers are lists of naturals.
-/

/-- Result quintuple of convert: mirrors the Python return
(pdf_data, pdf_filename, midi_data, midi_filename, error). -/
structure ConvReturn where
  pdf_data : Option (List Nat)
  pdf_filename : Option String
  midi_data : Option (List Nat)
  midi_filename : Option String
  error : Option String
deriving DecidableEq

/-- Environment of one call to convert: the outcome of each effectful step,
in the order the code performs them. run_result is the subprocess.run call:
error = a raised exception, ok = (returncode, captured stderr).
pdf_file / midi_file are the contents of score.pdf / score.midi in the
scratch directory after the run (none = the file does not exist). -/
structure ConvEnv where
  tmp : String
  write_src : Except String Unit
  run_result : Except String (Int × String)
  pdf_file : Option (List Nat)
  mk_cache : Except String Unit
  copy_pdf : Except String Unit
  midi_file : Option (List Nat)
  copy_midi : Except String Unit

/-- cache_dir = os.path.join(tempfile.gettempdir(), "streamlit_lilypond_cache"). -/
def cache_dir (tmp : String) : String := tmp ++ "/streamlit_lilypond_cache"

/-- final_pdf_path = os.path.join(cache_dir, f"{output_name}.pdf"). -/
def final_pdf_path (tmp output_name : String) : String :=
  cache_dir tmp ++ "/" ++ output_name ++ ".pdf"

/-- final_midi_path = os.path.join(cache_dir, f"{output_name}.midi"). -/
def final_midi_path (tmp output_name : String) : String :=
  cache_dir tmp ++ "/" ++ output_name ++ ".midi"

/-- The catch-all except branch: f"Error during conversion: {str(e)}". -/
def caught (e : String) : ConvReturn :=
  ⟨none, none, none, none, some ("Error during conversion: " ++ e)⟩

/-- convert_lilypond_to_pdf_midi, step for step, together with the list of
cache paths it writes (the shutil.copy2 destinations), in order. After a
successful copy the subsequent read of the destination yields the copied
bytes, so pdf_data / midi_data are the scratch-file contents. -/
def convert_core (env : ConvEnv) (output_name : String) : ConvReturn × List String :=
  match env.write_src with
  | .error e => (caught e, [])
  | .ok _ =>
    match env.run_result with
    | .error e => (caught e, [])
    | .ok (returncode, stderr_text) =>
      if returncode ≠ 0 then
        (⟨none, none, none, none, some ("LilyPond Error: " ++ stderr_text)⟩, [])
      else
        match env.pdf_file with
        | none => (⟨none, none, none, none, some "LilyPond did not generate a PDF."⟩, [])
        | some pdf_bytes =>
          match env.mk_cache with
          | .error e => (caught e, [])
          | .ok _ =>
            match env.copy_pdf with
            | .error e => (caught e, [])
            | .ok _ =>
              match env.midi_file with
              | none =>
                (⟨some pdf_bytes, some (output_name ++ ".pdf"), none, none, none⟩,
                 [final_pdf_path env.tmp output_name])
              | some midi_bytes =>
                match env.copy_midi with
                | .error e => (caught e, [final_pdf_path env.tmp output_name])
                | .ok _ =>
                  (⟨some pdf_bytes, some (output_name ++ ".pdf"),
                    some midi_bytes, some (output_name ++ ".midi"), none⟩,
                   [final_pdf_path env.tmp output_name,
                    final_midi_path env.tmp output_name])

/-- The value convert returns to its caller. -/
def convert_lilypond (env : ConvEnv) (output_name : String) : ConvReturn :=
  (convert_core env output_name).1

/-- The cache paths convert writes during the call. -/
def cache_writes (env : ConvEnv) (output_name : String) : List String :=
  (convert_core env output_name).2

/-- Success shape of the quintuple: no error, PDF bytes and filename present,
MIDI bytes and filename both present or both absent. -/
def is_success (r : ConvReturn) : Prop :=
  r.error = none ∧ r.pdf_data.isSome ∧ r.pdf_filename.isSome ∧
  (r.midi_data.isSome ↔ r.midi_filename.isSome)

/-- Failure shape of the quintuple: an error message present and all four
artifact fields absent. -/
def is_failure (r : ConvReturn) : Prop :=
  r.error.isSome ∧ r.pdf_data = none ∧ r.pdf_filename = none ∧
  r.midi_data = none ∧ r.midi_filename = none

/-- The reserved filesystem characters of the spec. -/
def reserved_chars : List Char :=
  ['\\', '/', ':', '*', '?', '"', '<', '>', '|']

/-- A base name sanitized in the sense of the spec: non-empty and free of
path separators and reserved filesystem characters. -/
def sanitized_base (s : String) : Prop :=
  s.data ≠ [] ∧ ∀ c ∈ s.data, c ∉ reserved_chars

/-- One observable probe of find_lilypond: a subprocess spawn
(subprocess.run of the bare command with the version flag) or a filesystem
check of one candidate path (os.path.isfile plus os.access). -/
inductive ProbeEvent where
  | spawn : ProbeEvent
  | fsprobe : String → ProbeEvent
deriving DecidableEq

/-- Environment of one call to find_lilypond. bare_version is the outcome of
running the bare command with the version flag: none = FileNotFoundError,
some rc = process ran with returncode rc. os_name and platform_system are
the values of os.name and platform.system(). is_exec_file answers the
os.path.isfile and os.access X_OK conjunction for a path. -/
structure LocEnv where
  bare_version : Option Int
  os_name : String
  platform_system : String
  program_files : String
  program_files_x86 : String
  home : String
  is_exec_file : String → Bool

/-- The ordered platform-specific candidate list built by find_lilypond. -/
def common_paths (env : LocEnv) : List String :=
  if env.os_name = "nt" then
    [env.program_files ++ "\\LilyPond\\usr\\bin\\lilypond.exe",
     env.program_files ++ "\\LilyPond\\bin\\lilypond.exe",
     env.program_files_x86 ++ "\\LilyPond\\usr\\bin\\lilypond.exe",
     env.program_files_x86 ++ "\\LilyPond\\bin\\lilypond.exe"]
  else if env.platform_system = "darwin" then
    ["/Applications/LilyPond.app/Contents/Resources/bin/lilypond",
     env.home ++ "/Applications/LilyPond.app/Contents/Resources/bin/lilypond"]
  else
    ["/usr/bin/lilypond", "/usr/local/bin/lilypond"]

/-- The for-loop over common_paths: returns the first path that passes the
probe, with a trace of the filesystem probes performed. -/
def probe_paths (f : String → Bool) : List String → Option String × List ProbeEvent
  | [] => (none, [])
  | p :: rest =>
    if f p then (some p, [ProbeEvent.fsprobe p])
    else
      let r := probe_paths f rest
      (r.1, ProbeEvent.fsprobe p :: r.2)

/-- find_lilypond with its probe trace. The function keeps no state between
calls: the source has no module-level cache, so each call evaluates this
definition afresh. -/
def find_lilypond_traced (env : LocEnv) : Option String × List ProbeEvent :=
  match env.bare_version with
  | some rc =>
    if rc = 0 then (some "lilypond", [ProbeEvent.spawn])
    else
      let r := probe_paths env.is_exec_file (common_paths env)
      (r.1, ProbeEvent.spawn :: r.2)
  | none =>
    let r := probe_paths env.is_exec_file (common_paths env)
    (r.1, ProbeEvent.spawn :: r.2)

/-- The value find_lilypond returns. -/
def find_lilypond (env : LocEnv) : Option String :=
  (find_lilypond_traced env).1

/-- n successive calls to find_lilypond in one process with an unchanged
environment: the source keeps no cache, so every call re-evaluates the
same stateless function. -/
def run_calls (env : LocEnv) (n : Nat) : List (Option String × List ProbeEvent) :=
  List.replicate n (find_lilypond_traced env)

/-- Boolean check that s begins with p. -/
def begins_with : List Char → List Char → Bool
  | [], _ => true
  | _ :: _, [] => false
  | p :: ps, c :: cs => p == c && begins_with ps cs

/-- Scan s for the first occurrence of pat; on a hit, return the remainder
of s after that occurrence. -/
def drop_after_first (pat : List Char) : List Char → Option (List Char)
  | [] => if pat.isEmpty then some [] else none
  | c :: rest =>
    if begins_with pat (c :: rest) then some ((c :: rest).drop pat.length)
    else drop_after_first pat rest

/-- pat occurs as a contiguous run inside s. -/
def has_sub (pat s : List Char) : Prop :=
  ∃ a b, s = a ++ pat ++ b

/-- Skip ASCII whitespace. -/
def skip_spaces : List Char → List Char
  | [] => []
  | c :: rest =>
    if c = ' ' ∨ c = '\t' ∨ c = '\n' ∨ c = '\r' then skip_spaces rest
    else c :: rest

/-- Modelled from the spec: sanitize a title by replacing each of the
reserved characters with an underscore. -/
def sanitize_title (l : List Char) : List Char :=
  l.map (fun c => if c ∈ reserved_chars then '_' else c)

/-- Modelled from the spec: inside a header block body, locate the first
title assignment of the form title = "..." and return its sanitized
payload. -/
def find_title (content : List Char) : Option String :=
  match drop_after_first ("title".data) content with
  | none => none
  | some after_kw =>
    match skip_spaces after_kw with
    | '=' :: rest =>
      (match skip_spaces rest with
       | '"' :: rest2 =>
         if rest2.any (fun d => d = '"') then
           some (String.mk (sanitize_title (rest2.takeWhile (fun d => d ≠ '"'))))
         else none
       | _ => none)
    | _ => none

/-- The header keyword of the notation language. -/
def header_kw : String := "\\header"

/-- Modelled from the spec: the title extractor is absent from src/ (only
the spec describes it). It locates the first header block, delimited by the
fixed keyword and a non-nested brace pair, locates the first title
assignment inside it, sanitizes the title and returns it; it returns none
when no such block or assignment exists. -/
def extract_title (s : String) : Option String :=
  match drop_after_first header_kw.data s.data with
  | none => none
  | some after_kw =>
    match skip_spaces after_kw with
    | c :: rest =>
      if c = '\x7b' then
        if rest.any (fun d => d = '\x7d') then
          find_title (rest.takeWhile (fun d => d ≠ '\x7d'))
        else none
      else none
    | [] => none

/-- A run in which the engraver exits 0 and leaves an empty score.pdf. -/
def env_empty_pdf : ConvEnv :=
  ⟨"/tmp", .ok (), .ok (0, ""), some [], .ok (), .ok (), none, .ok ()⟩

/-- A clean successful run: exit 0, a one-byte score.pdf, no score.midi. -/
def env_ok : ConvEnv :=
  ⟨"/tmp", .ok (), .ok (0, ""), some [37], .ok (), .ok (), none, .ok ()⟩

/-- A run in which the engraver exits 1 with diagnostic text on stderr. -/
def env_bad_exit : ConvEnv :=
  ⟨"/tmp", .ok (), .ok (1, "syntax error"), none, .ok (), .ok (), none, .ok ()⟩

/-- A run in which the engraver exits 0 but writes no score.pdf. -/
def env_no_pdf : ConvEnv :=
  ⟨"/tmp", .ok (), .ok (0, "warning"), none, .ok (), .ok (), none, .ok ()⟩

/-- A clean successful run that also produces a score.midi. -/
def env_with_midi : ConvEnv :=
  ⟨"/tmp", .ok (), .ok (0, ""), some [4, 2], .ok (), .ok (), some [9], .ok ()⟩

/-- A run in which writing the source file raises an exception. -/
def env_write_fails : ConvEnv :=
  ⟨"/tmp", .error "disk full", .ok (0, ""), some [1], .ok (), .ok (), none, .ok ()⟩

/-- A run in which spawning the engraver raises an exception. -/
def env_spawn_fails : ConvEnv :=
  ⟨"/tmp", .ok (), .error "spawn failed", some [1], .ok (), .ok (), none, .ok ()⟩

/-- A host on which the bare command name runs and exits 0. -/
def loc_env_bare : LocEnv :=
  ⟨some 0, "posix", "Linux", "C:\\Program Files", "C:\\Program Files (x86)",
   "/root", fun _ => false⟩

/-- A notation source with a header block titled My/Song:Test. -/
def sample_src : String :=
  "\\version \"2.20\"\n\\header \x7b\n  title = \"My/Song:Test\"\n  composer = \"X\"\n\x7d\n"

theorem begins_with_self_append (p b : List Char) : begins_with p (p ++ b) = true := by
  induction p with
  | nil => simp [begins_with]
  | cons c cs ih => simp [begins_with, ih]

theorem begins_with_exists (p : List Char) :
    ∀ s : List Char, begins_with p s = true → ∃ b, s = p ++ b := by
  induction p with
  | nil => intro s _; exact ⟨s, rfl⟩
  | cons c cs ih =>
    intro s h
    cases s with
    | nil => simp [begins_with] at h
    | cons d ds =>
      simp only [begins_with, Bool.and_eq_true, beq_iff_eq] at h
      obtain ⟨rfl, h2⟩ := h
      obtain ⟨b, rfl⟩ := ih ds h2
      exact ⟨b, rfl⟩

theorem drop_some_has_sub (pat : List Char) :
    ∀ s r : List Char, drop_after_first pat s = some r → has_sub pat s := by
  intro s
  induction s with
  | nil =>
    intro r h
    unfold drop_after_first at h
    by_cases hp : pat.isEmpty
    · have : pat = [] := by simpa [List.isEmpty_iff] using hp
      exact ⟨[], [], by simp [this]⟩
    · simp [hp] at h
  | cons c cs ih =>
    intro r h
    unfold drop_after_first at h
    by_cases hb : begins_with pat (c :: cs)
    · obtain ⟨b, hsb⟩ := begins_with_exists pat (c :: cs) hb
      exact ⟨[], b, by simpa using hsb⟩
    · simp [hb] at h
      obtain ⟨a, b, hab⟩ := ih r h
      exact ⟨c :: a, b, by simp [hab]⟩

theorem drop_ne_none_of_has_sub (pat : List Char) :
    ∀ s : List Char, has_sub pat s → drop_after_first pat s ≠ none := by
  intro s
  induction s with
  | nil =>
    rintro ⟨a, b, hab⟩
    have h0 : a ++ pat ++ b = [] := hab.symm
    have hp : pat = [] := by
      rcases List.append_eq_nil.mp h0 with ⟨h1, -⟩
      exact (List.append_eq_nil.mp h1).2
    simp [drop_after_first, hp]
  | cons c cs ih =>
    rintro ⟨a, b, hab⟩ hnone
    unfold drop_after_first at hnone
    by_cases hb : begins_with pat (c :: cs) = true
    · simp [hb] at hnone
    · simp only [hb, if_false, Bool.not_eq_true] at hnone
      cases a with
      | nil =>
        have hab2 : c :: cs = pat ++ b := by simpa using hab
        exact hb (by rw [hab2]; exact begins_with_self_append pat b)
      | cons d a2 =>
        simp only [List.cons_append, List.cons.injEq] at hab
        obtain ⟨-, hcs⟩ := hab
        exact ih ⟨a2, b, hcs⟩ hnone

theorem not_has_sub_of_none (pat s : List Char)
    (h : drop_after_first pat s = none) : ¬ has_sub pat s :=
  fun hs => drop_ne_none_of_has_sub pat s hs h

theorem sanitize_no_reserved (l : List Char) :
    ∀ c ∈ sanitize_title l, c ∉ reserved_chars := by
  intro c hc
  unfold sanitize_title at hc
  simp only [List.mem_map] at hc
  obtain ⟨d, _, hfd⟩ := hc
  by_cases hdr : d ∈ reserved_chars
  · simp only [hdr, if_pos] at hfd
    subst hfd
    decide
  · simp only [hdr, if_neg, not_false_iff] at hfd
    subst hfd
    exact hdr

theorem find_title_sanitized (content : List Char) (t : String)
    (h : find_title content = some t) : ∀ c ∈ t.data, c ∉ reserved_chars := by
  unfold find_title at h
  split at h
  · exact absurd h (by simp)
  · split at h
    · split at h
      · split at h
        · have ht := Option.some.inj h
          intro c hc
          rw [← ht] at hc
          exact sanitize_no_reserved _ c hc
        · exact absurd h (by simp)
      · exact absurd h (by simp)
    · exact absurd h (by simp)




/-- Claim C1, counterexample: with exit status 0 and an existing but empty
score.pdf, convert returns Success whose PDF bytes are empty, so the PDF
bytes are not always the NON-EMPTY contents of the produced file. -/
theorem convert_empty_pdf_cex :
    env_empty_pdf.run_result = Except.ok ((0 : Int), "") ∧
    env_empty_pdf.pdf_file = some [] ∧
    convert_lilypond env_empty_pdf "song" =
      ⟨some [], some "song.pdf", none, none, none⟩ :=
  ⟨rfl, rfl, rfl⟩

/-- Claim C1 (amended): when the engraver exits 0, score.pdf exists, and the
scratch and cache filesystem operations succeed, convert returns Success
whose PDF bytes are exactly the contents of score.pdf (hence non-empty
whenever that file is non-empty) and whose PDF filename is the output base
name followed by ".pdf". -/
theorem convert_success_pdf_contents (env : ConvEnv) (name : String)
    (pdf_bytes : List Nat) (serr : String)
    (hw : env.write_src = Except.ok ())
    (hr : env.run_result = Except.ok (0, serr))
    (hp : env.pdf_file = some pdf_bytes)
    (hk : env.mk_cache = Except.ok ())
    (hc : env.copy_pdf = Except.ok ())
    (hm : env.copy_midi = Except.ok ()) :
    (convert_lilypond env name).pdf_data = some pdf_bytes ∧
    (convert_lilypond env name).pdf_filename = some (name ++ ".pdf") ∧
    (convert_lilypond env name).error = none ∧
    (pdf_bytes ≠ [] → (convert_lilypond env name).pdf_data ≠ some []) := by
  cases hmf : env.midi_file with
  | none =>
    simp [convert_lilypond, convert_core, hw, hr, hp, hk, hc, hm, hmf]
  | some midi_bytes =>
    simp [convert_lilypond, convert_core, hw, hr, hp, hk, hc, hm, hmf]

/-- Claim C1 witness: the amended theorem at a concrete clean run. -/
theorem convert_success_pdf_contents_w :
    (convert_lilypond env_ok "song").pdf_data = some [37] ∧
    (convert_lilypond env_ok "song").pdf_filename = some ("song" ++ ".pdf") ∧
    (convert_lilypond env_ok "song").error = none ∧
    (([37] : List Nat) ≠ [] → (convert_lilypond env_ok "song").pdf_data ≠ some []) :=
  convert_success_pdf_contents env_ok "song" [37] "" rfl rfl rfl rfl rfl rfl

/-- Claim C2: when the engraver exits with a non-zero status, convert
returns the Failure quintuple whose message is the captured stderr text
prefixed by the fixed external-tool marker. -/
theorem convert_nonzero_exit_failure (env : ConvEnv) (name : String)
    (code : Int) (stderr_text : String)
    (hw : env.write_src = Except.ok ())
    (hr : env.run_result = Except.ok (code, stderr_text))
    (hc : code ≠ 0) :
    convert_lilypond env name =
      ⟨none, none, none, none, some ("LilyPond Error: " ++ stderr_text)⟩ := by
  simp [convert_lilypond, convert_core, hw, hr, hc]

/-- Claim C2 witness: the theorem at a concrete failing run. -/
theorem convert_nonzero_exit_failure_w :
    convert_lilypond env_bad_exit "song" =
      ⟨none, none, none, none, some ("LilyPond Error: " ++ "syntax error")⟩ :=
  convert_nonzero_exit_failure env_bad_exit "song" 1 "syntax error" rfl rfl (by decide)

/-- Claim C3, counterexample: with exit 0 and no score.pdf, the Failure
message the code produces is the fixed string "LilyPond did not generate a
PDF.", which is not the string "no PDF produced" named by the claim. -/
theorem convert_no_pdf_message_cex :
    (convert_lilypond env_no_pdf "song").error =
      some "LilyPond did not generate a PDF." ∧
    ("LilyPond did not generate a PDF." : String) ≠ "no PDF produced" :=
  ⟨rfl, by decide⟩

/-- Claim C3 (amended): when the engraver exits 0 but score.pdf is absent,
convert returns the Failure quintuple carrying the fixed diagnostic message
"LilyPond did not generate a PDF.". -/
theorem convert_missing_pdf_failure (env : ConvEnv) (name : String)
    (serr : String)
    (hw : env.write_src = Except.ok ())
    (hr : env.run_result = Except.ok (0, serr))
    (hp : env.pdf_file = none) :
    convert_lilypond env name =
      ⟨none, none, none, none, some "LilyPond did not generate a PDF."⟩ := by
  simp [convert_lilypond, convert_core, hw, hr, hp]

/-- Claim C3 witness: the amended theorem at a concrete run. -/
theorem convert_missing_pdf_failure_w :
    convert_lilypond env_no_pdf "song" =
      ⟨none, none, none, none, some "LilyPond did not generate a PDF."⟩ :=
  convert_missing_pdf_failure env_no_pdf "song" "warning" rfl rfl rfl

/-- Claim C4: every quintuple convert returns is exactly one of the two
variants: Success (no error, PDF bytes and filename present, MIDI bytes and
filename both present or both absent) or Failure (error present, all four
artifact fields absent). -/
theorem convert_exactly_one_variant (env : ConvEnv) (name : String) :
    (is_success (convert_lilypond env name) ∧ ¬ is_failure (convert_lilypond env name)) ∨
    (is_failure (convert_lilypond env name) ∧ ¬ is_success (convert_lilypond env name)) := by
  unfold convert_lilypond convert_core
  rcases env with ⟨tmp, ws, rr, pf, mk, cp, mf, cm⟩
  dsimp only
  rcases ws with e | u
  · right; simp [caught, is_failure, is_success]
  · rcases rr with e | ⟨code, serr⟩
    · right; simp [caught, is_failure, is_success]
    · by_cases hc : code = 0
      · rcases pf with _ | pdf_bytes
        · right; simp [hc, is_failure, is_success]
        · rcases mk with e | u2
          · right; simp [hc, caught, is_failure, is_success]
          · rcases cp with e | u3
            · right; simp [hc, caught, is_failure, is_success]
            · rcases mf with _ | midi_bytes
              · left; simp [hc, is_success, is_failure]
              · rcases cm with e | u4
                · right; simp [hc, caught, is_failure, is_success]
                · left; simp [hc, is_success, is_failure]
      · right; simp [hc, is_failure, is_success]

/-- Claim C5: on a successful run that produced no score.midi, convert
returns Success with both MIDI fields absent and no error. -/
theorem convert_no_midi_success (env : ConvEnv) (name : String)
    (pdf_bytes : List Nat) (serr : String)
    (hw : env.write_src = Except.ok ())
    (hr : env.run_result = Except.ok (0, serr))
    (hp : env.pdf_file = some pdf_bytes)
    (hk : env.mk_cache = Except.ok ())
    (hc : env.copy_pdf = Except.ok ())
    (hmf : env.midi_file = none) :
    convert_lilypond env name =
      ⟨some pdf_bytes, some (name ++ ".pdf"), none, none, none⟩ := by
  simp [convert_lilypond, convert_core, hw, hr, hp, hk, hc, hmf]

/-- Claim C5 witness: the theorem at a concrete clean run without MIDI. -/
theorem convert_no_midi_success_w :
    convert_lilypond env_ok "tune" =
      ⟨some [37], some ("tune" ++ ".pdf"), none, none, none⟩ :=
  convert_no_midi_success env_ok "tune" [37] "" rfl rfl rfl rfl rfl rfl

/-- Claim C6, counterexample: convert processes a request whose base name
contains a path separator, and one whose base name is empty, to completion;
the raw name is interpolated into the cache path, so the base name is
neither guaranteed non-empty nor sanitized before use. -/
theorem convert_unsanitized_name_cex :
    (convert_lilypond env_ok "My/Song").error = none ∧
    cache_writes env_ok "My/Song" = ["/tmp/streamlit_lilypond_cache/My/Song.pdf"] ∧
    (convert_lilypond env_ok "").error = none ∧
    cache_writes env_ok "" = ["/tmp/streamlit_lilypond_cache/.pdf"] ∧
    ¬ sanitized_base "My/Song" ∧ ¬ sanitized_base "" := by
  refine ⟨rfl, by decide, rfl, by decide, ?_, ?_⟩
  · unfold sanitized_base
    decide
  · unfold sanitized_base
    decide

/-- Claim C6 (amended): convert performs no emptiness check and no
sanitization on the output base name; the name is interpolated verbatim into
the cache path and the artifact filename. -/
theorem convert_uses_name_verbatim (env : ConvEnv) (name : String)
    (pdf_bytes : List Nat) (serr : String)
    (hw : env.write_src = Except.ok ())
    (hr : env.run_result = Except.ok (0, serr))
    (hp : env.pdf_file = some pdf_bytes)
    (hk : env.mk_cache = Except.ok ())
    (hc : env.copy_pdf = Except.ok ())
    (hmf : env.midi_file = none) :
    cache_writes env name = [cache_dir env.tmp ++ "/" ++ name ++ ".pdf"] ∧
    (convert_lilypond env name).pdf_filename = some (name ++ ".pdf") := by
  constructor
  · simp [cache_writes, convert_core, hw, hr, hp, hk, hc, hmf, final_pdf_path]
  · simp [convert_lilypond, convert_core, hw, hr, hp, hk, hc, hmf]

/-- Claim C6 witness: the amended theorem at a concrete run with a base
name containing a separator. -/
theorem convert_uses_name_verbatim_w :
    cache_writes env_ok "My/Song" =
      [cache_dir env_ok.tmp ++ "/" ++ "My/Song" ++ ".pdf"] ∧
    (convert_lilypond env_ok "My/Song").pdf_filename = some ("My/Song" ++ ".pdf") :=
  convert_uses_name_verbatim env_ok "My/Song" [37] "" rfl rfl rfl rfl rfl rfl

/-- Claim C7, counterexample: two successive calls to the locator in one
process each perform their own subprocess spawn (the source keeps no cache),
so the second call does not return a memoized value without probing. -/
theorem find_lilypond_not_memoized_cex :
    run_calls loc_env_bare 2 =
      [(some "lilypond", [ProbeEvent.spawn]), (some "lilypond", [ProbeEvent.spawn])] ∧
    ([ProbeEvent.spawn] : List ProbeEvent) ≠ [] :=
  ⟨rfl, by decide⟩

/-- Claim C7 (amended): the locator is not memoized; every call in a
sequence of calls re-evaluates the same stateless lookup, and each call
begins with a fresh diagnostic subprocess spawn. Repeated calls in an
unchanged environment return equal results. -/
theorem find_lilypond_reprobes (env : LocEnv) (n : Nat)
    (r : Option String × List ProbeEvent) (hr : r ∈ run_calls env n) :
    r = find_lilypond_traced env ∧ r.2.head? = some ProbeEvent.spawn := by
  have he : r = find_lilypond_traced env := List.eq_of_mem_replicate hr
  subst he
  refine ⟨rfl, ?_⟩
  unfold find_lilypond_traced
  cases h : env.bare_version with
  | none => rfl
  | some rc =>
    by_cases hz : rc = 0
    · simp [hz]
    · simp [hz]

/-- Claim C7 witness: the amended theorem at the second of two calls on a
concrete host. -/
theorem find_lilypond_reprobes_w :
    (some "lilypond", [ProbeEvent.spawn]) = find_lilypond_traced loc_env_bare ∧
    ((some "lilypond", [ProbeEvent.spawn]) :
      Option String × List ProbeEvent).2.head? = some ProbeEvent.spawn :=
  find_lilypond_reprobes loc_env_bare 2 (some "lilypond", [ProbeEvent.spawn]) (by decide)

/-- Claim C8: when the bare command name runs with exit status 0, the
locator returns the bare name itself after the single spawn, performing no
filesystem probe of the platform-specific path list. -/
theorem find_bare_no_path_probes (env : LocEnv)
    (h : env.bare_version = some 0) :
    find_lilypond_traced env = (some "lilypond", [ProbeEvent.spawn]) ∧
    ∀ p, ProbeEvent.fsprobe p ∉ (find_lilypond_traced env).2 := by
  have he : find_lilypond_traced env = (some "lilypond", [ProbeEvent.spawn]) := by
    unfold find_lilypond_traced
    rw [h]
    simp
  refine ⟨he, ?_⟩
  intro p hp
  rw [he] at hp
  simp at hp

/-- Claim C8 witness: the theorem at a concrete host where the bare command
exits 0. -/
theorem find_bare_no_path_probes_w :
    find_lilypond_traced loc_env_bare = (some "lilypond", [ProbeEvent.spawn]) :=
  (find_bare_no_path_probes loc_env_bare rfl).1

/-- Claim C9 (modelled from the spec; the extractor is absent from src/):
extract_title returns none on any text with no occurrence of the header
keyword, returns the first-match title sanitized (the title My/Song:Test
yields My_Song_Test), and every character of a returned title is outside
the reserved set. -/
theorem extract_title_spec_ok :
    (∀ s : String, ¬ has_sub header_kw.data s.data → extract_title s = none) ∧
    extract_title sample_src = some "My_Song_Test" ∧
    (∀ s : String, ∀ t : String, extract_title s = some t →
      ∀ c ∈ t.data, c ∉ reserved_chars) := by
  refine ⟨?_, by decide, ?_⟩
  · intro s h
    cases hd : drop_after_first header_kw.data s.data with
    | none =>
      unfold extract_title
      rw [hd]
    | some r => exact absurd (drop_some_has_sub header_kw.data s.data r hd) h
  · intro s t h
    unfold extract_title at h
    split at h
    · exact absurd h (by simp)
    · split at h
      · split at h
        · split at h
          · exact find_title_sanitized _ t h
          · exact absurd h (by simp)
        · exact absurd h (by simp)
      · exact absurd h (by simp)

/-- Claim C9 witness: the theorem applied at concrete inputs, with the
no-header hypothesis discharged for a text with no header keyword. -/
theorem extract_title_spec_ok_w :
    extract_title "no header here" = none ∧
    extract_title sample_src = some "My_Song_Test" :=
  ⟨extract_title_spec_ok.1 "no header here"
     (not_has_sub_of_none header_kw.data ("no header here".data) (by decide)),
   extract_title_spec_ok.2.1⟩

/-- Claim C10: convert maps every injected filesystem or subprocess
exception to the Failure quintuple carrying the catch-all user-facing
message; the embedding is a total function, so no exception escapes to the
caller. Each conjunct covers one fallible operation, in program order. -/
theorem convert_catches_all_errors (env : ConvEnv) (name : String) :
    (∀ e, env.write_src = Except.error e →
       convert_lilypond env name = caught e) ∧
    (∀ e, env.write_src = Except.ok () → env.run_result = Except.error e →
       convert_lilypond env name = caught e) ∧
    (∀ e pdf_bytes serr, env.write_src = Except.ok () →
       env.run_result = Except.ok (0, serr) → env.pdf_file = some pdf_bytes →
       env.mk_cache = Except.error e → convert_lilypond env name = caught e) ∧
    (∀ e pdf_bytes serr, env.write_src = Except.ok () →
       env.run_result = Except.ok (0, serr) → env.pdf_file = some pdf_bytes →
       env.mk_cache = Except.ok () → env.copy_pdf = Except.error e →
       convert_lilypond env name = caught e) ∧
    (∀ e pdf_bytes midi_bytes serr, env.write_src = Except.ok () →
       env.run_result = Except.ok (0, serr) → env.pdf_file = some pdf_bytes →
       env.mk_cache = Except.ok () → env.copy_pdf = Except.ok () →
       env.midi_file = some midi_bytes → env.copy_midi = Except.error e →
       convert_lilypond env name = caught e) := by
  refine ⟨?_, ?_, ?_, ?_, ?_⟩
  · intro e hw
    simp [convert_lilypond, convert_core, hw]
  · intro e hw hr
    simp [convert_lilypond, convert_core, hw, hr]
  · intro e pdf_bytes serr hw hr hp hk
    simp [convert_lilypond, convert_core, hw, hr, hp, hk]
  · intro e pdf_bytes serr hw hr hp hk hc
    simp [convert_lilypond, convert_core, hw, hr, hp, hk, hc]
  · intro e pdf_bytes midi_bytes serr hw hr hp hk hc hmf hcm
    simp [convert_lilypond, convert_core, hw, hr, hp, hk, hc, hmf, hcm]

/-- Claim C10 witness: the theorem at concrete runs in which writing the
source file, respectively spawning the engraver, raises. -/
theorem convert_catches_all_errors_w :
    convert_lilypond env_write_fails "song" = caught "disk full" ∧
    convert_lilypond env_spawn_fails "song" = caught "spawn failed" :=
  ⟨(convert_catches_all_errors env_write_fails "song").1 "disk full" rfl,
   (convert_catches_all_errors env_spawn_fails "song").2.1 "spawn failed" rfl rfl⟩
